import Mathlib

/-!
Shallow embedding of `app.py` from the `predictor-ingresos-ml` repository.

The program wires a fitted regression model and scaler (opaque artifacts
loaded from disk) to a Google Sheets row and a Gradio form.  We embed:

* the spreadsheet cell values of data row 2 as a list of cells;
* the startup credential loading (`setup_google_sheets`) and the
  spreadsheet binding block (open-or-create, including header/data row
  insertion and sharing) with the outcomes of the remote API calls given
  by an explicit environment, uncaught Python exceptions becoming
  `Except.error`;
* the model/scaler loading (`joblib.load` guarded by `FileNotFoundError`);
* the three handlers `predecir_y_guardar_sheets`, `limpiar_datos` and
  `mostrar_datos_actuales` as pure functions of the current sheet state
  and an environment carrying the timestamp, the outcome of the remote
  write/read, and the opaque numeric operations (the model, the scaler,
  `np.expm1`, Python's number formatting).

Numbers are modelled as rationals; the fitted model, the fitted scaler
and the float-formatting routines are opaque parameters, since the code
only ever applies them.
-/

set_option autoImplicit false

/-- A spreadsheet cell as written by the program: either a text cell or a
numeric cell. -/
inductive Cell where
  | str (s : String)
  | num (q : ℚ)
  deriving DecidableEq, Repr

/-- Rendering of a cell back to the text seen when reading the row
(`sheet.row_values`), numbers shown without a fractional part when whole. -/
def cellText : Cell → String
  | Cell.str s => s
  | Cell.num q => if q.den = 1 then toString q.num else toString q

/-- The ten numeric form inputs of `predecir_y_guardar_sheets`, in the
positional order of the Python parameter list. -/
structure Inputs where
  interacciones : ℚ
  asesores : ℚ
  prom_interacciones : ℚ
  cumplimiento : ℚ
  participacion : ℚ
  prom_matriculas : ℚ
  crec_mensual : ℚ
  crec_anual : ℚ
  interacciones_por_asesor : ℚ
  matriculas_por_asesor : ℚ
  deriving DecidableEq, Repr

/-- The `data_input` dictionary built in `predecir_y_guardar_sheets`,
as an association list in Python dict insertion order. -/
def data_input (i : Inputs) : List (String × ℚ) :=
  [("Interacciones", i.interacciones),
   ("Cantidad Asesores", i.asesores),
   ("Promedio Interacciones", i.prom_interacciones),
   ("% Cumplimiento Meta", i.cumplimiento),
   ("Participación %", i.participacion),
   ("Promedio Matrículas", i.prom_matriculas),
   ("Crecimiento mensual %", i.crec_mensual),
   ("Crecimiento interanual %", i.crec_anual),
   ("Interacciones por asesor", i.interacciones_por_asesor),
   ("Matrículas por asesor", i.matriculas_por_asesor)]

/-- The `variables_modelo` list: the fixed feature order expected by the
scaler. -/
def variables_modelo : List String :=
  ["Interacciones",
   "Cantidad Asesores",
   "Promedio Interacciones",
   "% Cumplimiento Meta",
   "Participación %",
   "Promedio Matrículas",
   "Crecimiento mensual %",
   "Crecimiento interanual %",
   "Interacciones por asesor",
   "Matrículas por asesor"]

/-- The all-zero guard: `all(valor == 0 for valor in data_input.values())`. -/
def allZero (i : Inputs) : Bool :=
  (data_input i).all (fun p => p.2 == 0)

/-- The feature row `df_input[variables_modelo]`: values selected from the data
dictionary by the names of `variables_modelo`, in that order. -/
def featuresOf (i : Inputs) : List ℚ :=
  variables_modelo.map (fun k => (((data_input i).lookup k).getD 0))

/-- The fitted regression model (`modelo.predict` on one scaled feature row),
opaque to this program. -/
def Model : Type := List ℚ → ℚ

/-- The fitted scaler (`scaler.transform` on one feature row), opaque to this
program. -/
def Scaler : Type := List ℚ → List ℚ

/-- Loading of the two artifact files with `joblib.load`, guarded by one
`except FileNotFoundError` that resets both names: if either file is
missing, both `modelo` and `scaler` end up `None`. -/
def loadModels (modeloFile : Option Model) (scalerFile : Option Scaler) :
    Option Model × Option Scaler :=
  match modeloFile with
  | none => (none, none)
  | some m =>
    match scalerFile with
    | none => (none, none)
    | some s => (some m, some s)

/-- The data row inserted at row 2 when the spreadsheet is created:
`[""] + [0] * 10 + [""]`. -/
def fila_datos_init : List Cell :=
  Cell.str "" :: (List.replicate 10 (Cell.num 0) ++ [Cell.str ""])

/-- The row written by `limpiar_datos`: `[timestamp] + [0] * 10 + [""]`. -/
def fila_limpia (ts : String) : List Cell :=
  Cell.str ts :: (List.replicate 10 (Cell.num 0) ++ [Cell.str ""])

/-- The row written by a successful prediction: timestamp, the ten inputs in
order, and the formatted estimate. -/
def fila_actualizada (ts : String) (i : Inputs) (estimado : String) : List Cell :=
  [Cell.str ts,
   Cell.num i.interacciones,
   Cell.num i.asesores,
   Cell.num i.prom_interacciones,
   Cell.num i.cumplimiento,
   Cell.num i.participacion,
   Cell.num i.prom_matriculas,
   Cell.num i.crec_mensual,
   Cell.num i.crec_anual,
   Cell.num i.interacciones_por_asesor,
   Cell.num i.matriculas_por_asesor,
   Cell.str estimado]

/-- Environment of one call to `predecir_y_guardar_sheets`: the formatted
`datetime.now()` timestamp, the outcome of the remote `sheet.update` call,
and the opaque numeric operations used by the body (`np.expm1`, the Python
format specs applied to the estimate and to the echoed inputs), plus the
module-level `SHEET_URL`. -/
structure PredictEnv where
  timestamp : String
  writeResult : Except String Unit
  expm1 : ℚ → ℚ
  fmtMiles : ℚ → String
  fmtComa : ℚ → String
  render : ℚ → String
  sheetUrl : String

/-- The multi-line `resultado` f-string returned by a prediction that got past
the guards, with the save status `sheets_status` spliced in. -/
def resultado_msg (env : PredictEnv) (i : Inputs) (ingreso : ℚ)
    (status : String) : String :=
  "\n🎯 **PREDICCIÓN COMPLETADA**\n\n💰 **Ingreso Estimado: $"
    ++ env.fmtMiles ingreso
    ++ "**\n\n📊 **Datos utilizados:**\n• Interacciones: "
    ++ env.fmtComa i.interacciones
    ++ "\n• Asesores: " ++ env.render i.asesores
    ++ "\n• Promedio Interacciones: " ++ env.render i.prom_interacciones
    ++ "\n• % Cumplimiento: " ++ env.render i.cumplimiento
    ++ "%\n• Participación: " ++ env.render i.participacion
    ++ "%\n\n" ++ status
    ++ "\n📅 Timestamp: " ++ env.timestamp
    ++ "\n\n🔗 **[Ver Google Sheet](" ++ env.sheetUrl ++ ")**\n        "

/-- The handler `predecir_y_guardar_sheets`: guard on loaded models, guard on all-zero
input, scale and predict, inverse-transform with `np.expm1`, then attempt the
row write (its failure caught and turned into a warning inside the returned
message).  Returns the message shown in the UI and the new row-2 state. -/
def predecir_y_guardar_sheets (modelo : Option Model) (scaler : Option Scaler)
    (sheet : Option (List Cell)) (env : PredictEnv) (i : Inputs) :
    String × Option (List Cell) :=
  match modelo, scaler with
  | some m, some sc =>
    if allZero i then
      ("⚠️ Por favor ingrese valores válidos (no todos pueden ser 0)", sheet)
    else
      let ingreso := env.expm1 (m (sc (featuresOf i)))
      match sheet with
      | some st =>
        match env.writeResult with
        | Except.ok _ =>
          (resultado_msg env i ingreso "✅ **Datos guardados en Google Sheets**",
           some (fila_actualizada env.timestamp i (env.fmtMiles ingreso)))
        | Except.error e =>
          (resultado_msg env i ingreso ("⚠️ Error guardando en Sheets: " ++ e),
           some st)
      | none =>
        (resultado_msg env i ingreso "⚠️ Google Sheets no configurado", none)
  | _, _ => ("❌ Error: Modelos ML no están disponibles", sheet)

/-- The handler `limpiar_datos`: overwrite row 2 with a fresh timestamp, ten zeros and an
empty estimate; a remote failure is caught and reported as a message, leaving
the row as it was. -/
def limpiar_datos (sheet : Option (List Cell)) (ts : String)
    (writeResult : Except String Unit) : String × Option (List Cell) :=
  match sheet with
  | none => ("⚠️ Google Sheets no configurado", none)
  | some st =>
    match writeResult with
    | Except.ok _ =>
      ("✅ Datos limpiados correctamente en Google Sheets", some (fila_limpia ts))
    | Except.error e => ("❌ Error limpiando datos: " ++ e, some st)

/-- The handler `mostrar_datos_actuales`: read row 2 (`sheet.row_values(2)`); when at least
12 cells are present, render them; otherwise report that there is no data yet.
A remote read failure is caught and reported as a message. -/
def mostrar_datos_actuales (sheet : Option (List Cell)) (url : String)
    (readResult : Except String Unit) : String :=
  match sheet with
  | none => "⚠️ Google Sheets no configurado"
  | some st =>
    match readResult with
    | Except.error e => "❌ Error leyendo datos: " ++ e
    | Except.ok _ =>
      if 12 ≤ st.length then
        "\n📊 **DATOS ACTUALES EN GOOGLE SHEETS**\n\n📅 Última actualización: "
          ++ cellText (st.getD 0 (Cell.str ""))
          ++ "\n🔢 Interacciones: " ++ cellText (st.getD 1 (Cell.str ""))
          ++ "\n👥 Asesores: " ++ cellText (st.getD 2 (Cell.str ""))
          ++ "\n📈 Promedio Interacciones: " ++ cellText (st.getD 3 (Cell.str ""))
          ++ "\n🎯 % Cumplimiento: " ++ cellText (st.getD 4 (Cell.str ""))
          ++ "%\n📊 Participación: " ++ cellText (st.getD 5 (Cell.str ""))
          ++ "%\n📋 Promedio Matrículas: " ++ cellText (st.getD 6 (Cell.str ""))
          ++ "\n📈 Crecimiento Mensual: " ++ cellText (st.getD 7 (Cell.str ""))
          ++ "%\n📈 Crecimiento Anual: " ++ cellText (st.getD 8 (Cell.str ""))
          ++ "%\n👤 Interacciones/Asesor: " ++ cellText (st.getD 9 (Cell.str ""))
          ++ "\n🎓 Matrículas/Asesor: " ++ cellText (st.getD 10 (Cell.str ""))
          ++ "\n\n💰 **RESULTADO ACTUAL: " ++ cellText (st.getD 11 (Cell.str ""))
          ++ "**\n\n🔗 **[Ver Google Sheet](" ++ url ++ ")**\n            "
      else "⚠️ No hay datos en Google Sheets aún"

/-- Environment of `setup_google_sheets`: the credential variable's value and
the outcomes of JSON parsing and of credential construction plus
`gspread.authorize`. -/
structure CredsEnv where
  creds_json : Option String
  parseResult : Except String Unit
  authResult : Except String Unit

/-- The startup function `setup_google_sheets`: read the credential variable, raise if falsy, parse
the JSON, build the credentials and authorize; every exception is caught and
turns the client into `None`. -/
def setup_google_sheets (env : CredsEnv) : Option Unit :=
  match env.creds_json with
  | none => none
  | some s =>
    if s = "" then none
    else
      match env.parseResult with
      | Except.error _ => none
      | Except.ok _ =>
        match env.authResult with
        | Except.error _ => none
        | Except.ok _ => some ()

/-- Outcome of `gc.open(NOMBRE_HOJA)`: the spreadsheet was found (with its id
and current row-2 contents), the `SpreadsheetNotFound` exception was raised,
or another exception was raised. -/
inductive OpenOutcome where
  | found (row2 : List Cell) (id : String)
  | notFound
  | err (e : String)
  deriving DecidableEq, Repr

instance {α β : Type} [DecidableEq α] [DecidableEq β] : DecidableEq (Except α β) := fun a b =>
  match a, b with
  | Except.error x, Except.error y =>
    if h : x = y then Decidable.isTrue (by rw [h]) else Decidable.isFalse (by simp [h])
  | Except.error _, Except.ok _ => Decidable.isFalse (by simp)
  | Except.ok _, Except.error _ => Decidable.isFalse (by simp)
  | Except.ok x, Except.ok y =>
    if h : x = y then Decidable.isTrue (by rw [h]) else Decidable.isFalse (by simp [h])

/-- Environment of the module-level spreadsheet binding block: the outcome of
the open call, and of the creation steps taken on `SpreadsheetNotFound`
(create, header insert, data row insert, share). -/
structure BindEnv where
  openOutcome : OpenOutcome
  createResult : Except String String
  insertHeaderResult : Except String Unit
  insertDataResult : Except String Unit
  shareResult : Except String Unit
  deriving DecidableEq, Repr

/-- Result of the binding block when it completes: the bound row-2 state (or
`None` when disabled) and the `SHEET_URL` value. -/
structure BindState where
  sheet : Option (List Cell)
  url : String
  deriving DecidableEq, Repr

/-- The module-level spreadsheet binding of `app.py`: with no client the
spreadsheet features are disabled; otherwise open the named sheet, and only on
`SpreadsheetNotFound` create it, insert the header row and the zeroed data
row, and share it.  Only that one exception is caught: any other failure of
the open, and any failure of a creation step, propagates (`Except.error`) and
aborts startup. -/
def bindSpreadsheet (gc : Option Unit) (env : BindEnv) :
    Except String BindState :=
  match gc with
  | none => Except.ok { sheet := none, url := "No configurado" }
  | some _ =>
    match env.openOutcome with
    | OpenOutcome.found row id =>
      Except.ok { sheet := some row,
                  url := "https://docs.google.com/spreadsheets/d/" ++ id }
    | OpenOutcome.err e => Except.error e
    | OpenOutcome.notFound =>
      match env.createResult with
      | Except.error e => Except.error e
      | Except.ok id =>
        match env.insertHeaderResult with
        | Except.error e => Except.error e
        | Except.ok _ =>
          match env.insertDataResult with
          | Except.error e => Except.error e
          | Except.ok _ =>
            match env.shareResult with
            | Except.error e => Except.error e
            | Except.ok _ =>
              Except.ok { sheet := some fila_datos_init,
                          url := "https://docs.google.com/spreadsheets/d/" ++ id }

/-- Cell classifier: text cell. -/
def isStrCell : Cell → Bool
  | Cell.str _ => true
  | Cell.num _ => false

/-- Cell classifier: numeric cell. -/
def isNumCell : Cell → Bool
  | Cell.str _ => false
  | Cell.num _ => true

/-- The row-2 shape invariant: exactly 12 cells, a text cell at position 0,
numeric cells at positions 1 through 10, and a text cell at position 11. -/
def rowShapeOk (r : List Cell) : Bool :=
  r.length == 12
    && isStrCell (r.getD 0 (Cell.num 0))
    && ((List.range 10).all fun k => isNumCell (r.getD (k + 1) (Cell.str "")))
    && isStrCell (r.getD 11 (Cell.num 0))

/-! ## Shared lemmas and concrete fixtures -/

theorem featuresOf_eq (i : Inputs) :
    featuresOf i =
      [i.interacciones, i.asesores, i.prom_interacciones, i.cumplimiento,
       i.participacion, i.prom_matriculas, i.crec_mensual, i.crec_anual,
       i.interacciones_por_asesor, i.matriculas_por_asesor] := rfl

/-- Concrete non-zero inputs (the form defaults of the UI). -/
def iW : Inputs :=
  { interacciones := 1000, asesores := 5, prom_interacciones := 200,
    cumplimiento := 85, participacion := 75, prom_matriculas := 50,
    crec_mensual := 10, crec_anual := 15, interacciones_por_asesor := 200,
    matriculas_por_asesor := 10 }

/-- Concrete all-zero inputs. -/
def iZero : Inputs :=
  { interacciones := 0, asesores := 0, prom_interacciones := 0,
    cumplimiento := 0, participacion := 0, prom_matriculas := 0,
    crec_mensual := 0, crec_anual := 0, interacciones_por_asesor := 0,
    matriculas_por_asesor := 0 }

/-- A concrete prediction environment with a succeeding write. -/
def envOk : PredictEnv :=
  { timestamp := "2025-01-01 12:00:00", writeResult := Except.ok (),
    expm1 := fun q => q + 1,
    fmtMiles := fun q => cellText (Cell.num q),
    fmtComa := fun q => cellText (Cell.num q),
    render := fun q => cellText (Cell.num q),
    sheetUrl := "https://docs.google.com/spreadsheets/d/demo" }

/-- A concrete prediction environment whose remote write fails. -/
def envErr : PredictEnv :=
  { timestamp := "2025-01-01 12:00:00", writeResult := Except.error "cuota excedida",
    expm1 := fun q => q + 1,
    fmtMiles := fun q => cellText (Cell.num q),
    fmtComa := fun q => cellText (Cell.num q),
    render := fun q => cellText (Cell.num q),
    sheetUrl := "https://docs.google.com/spreadsheets/d/demo" }

/-- A concrete model: sum of the features. -/
def mW : Model := fun l => l.foldl (fun a b => a + b) 0

/-- A concrete scaler: the identity transform. -/
def scW : Scaler := fun l => l

/-- A concrete pre-existing row-2 state. -/
def stW : List Cell := fila_limpia "2024-12-31 00:00:00"

/-! ## Claims -/

/-- C4: for every submission in which all ten input fields equal zero (with the
model and scaler loaded), the prediction operation returns the warning asking
for valid values and performs no write: the row-2 state is returned
unchanged. -/
theorem predict_allZero_warns (m : Model) (sc : Scaler)
    (sheet : Option (List Cell)) (env : PredictEnv) (i : Inputs)
    (hz : allZero i = true) :
    predecir_y_guardar_sheets (some m) (some sc) sheet env i =
      ("⚠️ Por favor ingrese valores válidos (no todos pueden ser 0)", sheet) := by
  simp [predecir_y_guardar_sheets, hz]

theorem predict_allZero_warns_witness :
    allZero iZero = true ∧
    predecir_y_guardar_sheets (some mW) (some scW) (some stW) envOk iZero =
      ("⚠️ Por favor ingrese valores válidos (no todos pueden ser 0)", some stW) :=
  ⟨by decide, predict_allZero_warns mW scW (some stW) envOk iZero (by decide)⟩

/-- C5: if either artifact file is missing at startup, `loadModels` sets both
the model and the scaler to unavailable, and every subsequent prediction call
returns the models-not-available message with the row-2 state unchanged (so no
scaling, inference or row write happens). -/
theorem missing_artifacts_disable_prediction (fm : Option Model)
    (fs : Option Scaler) (sheet : Option (List Cell)) (env : PredictEnv)
    (i : Inputs) (h : fm = none ∨ fs = none) :
    loadModels fm fs = (none, none) ∧
    predecir_y_guardar_sheets (loadModels fm fs).1 (loadModels fm fs).2
        sheet env i =
      ("❌ Error: Modelos ML no están disponibles", sheet) := by
  have hl : loadModels fm fs = (none, none) := by
    rcases h with h | h
    · subst h; rfl
    · subst h; cases fm <;> rfl
  refine ⟨hl, ?_⟩
  rw [hl]
  rfl

theorem missing_artifacts_disable_prediction_witness :
    ((none : Option Model) = none ∨ (some scW : Option Scaler) = none) ∧
    (loadModels none (some scW) = (none, none) ∧
     predecir_y_guardar_sheets (loadModels none (some scW)).1
         (loadModels none (some scW)).2 (some stW) envOk iW =
       ("❌ Error: Modelos ML no están disponibles", some stW)) :=
  ⟨Or.inl rfl,
   missing_artifacts_disable_prediction none (some scW) (some stW) envOk iW
     (Or.inl rfl)⟩

/-- C8: for every row-2 state with fewer than 12 cells (absent or short), the
show operation with a successful read returns the no-data message; being a
total function it throws nothing and, by the length guard, never indexes past
the end. -/
theorem show_short_row_no_data (st : List Cell) (url : String)
    (h : st.length < 12) :
    mostrar_datos_actuales (some st) url (Except.ok ()) =
      "⚠️ No hay datos en Google Sheets aún" := by
  simp only [mostrar_datos_actuales]
  rw [if_neg (by omega)]

theorem show_short_row_no_data_witness :
    ([] : List Cell).length < 12 ∧
    mostrar_datos_actuales (some []) "https://docs.google.com/spreadsheets/d/demo"
        (Except.ok ()) =
      "⚠️ No hay datos en Google Sheets aún" :=
  ⟨by decide,
   show_short_row_no_data [] "https://docs.google.com/spreadsheets/d/demo"
     (by decide)⟩

/-- C10: the model-availability check precedes the all-zero validation: with
the model or scaler unavailable even an all-zero submission returns the
models-not-available message, and the validation warning is returned only when
both artifacts are loaded. -/
theorem model_check_precedes_zero_check (m2 : Option Model) (s2 : Option Scaler)
    (mz : Option Model) (sz : Option Scaler) (sheet sheet2 : Option (List Cell))
    (env env2 : PredictEnv) (i0 i : Inputs)
    (hz : allZero i0 = true) (h : mz = none ∨ sz = none) :
    predecir_y_guardar_sheets mz sz sheet env i0 =
      ("❌ Error: Modelos ML no están disponibles", sheet) ∧
    ((predecir_y_guardar_sheets m2 s2 sheet2 env2 i).1 =
        "⚠️ Por favor ingrese valores válidos (no todos pueden ser 0)" →
      m2.isSome = true ∧ s2.isSome = true) := by
  constructor
  · rcases h with h | h
    · subst h; cases sz <;> rfl
    · subst h; cases mz <;> rfl
  · intro hwarn
    cases m2 with
    | none =>
      exfalso
      cases s2 <;>
        exact absurd
          (show ("❌ Error: Modelos ML no están disponibles" : String) =
              "⚠️ Por favor ingrese valores válidos (no todos pueden ser 0)" from hwarn)
          (by decide)
    | some m =>
      cases s2 with
      | none =>
        exact absurd
          (show ("❌ Error: Modelos ML no están disponibles" : String) =
              "⚠️ Por favor ingrese valores válidos (no todos pueden ser 0)" from hwarn)
          (by decide)
      | some s => exact ⟨rfl, rfl⟩

theorem model_check_precedes_zero_check_witness :
    allZero iZero = true ∧
    ((none : Option Model) = none ∨ (some scW : Option Scaler) = none) ∧
    (predecir_y_guardar_sheets none (some scW) (some stW) envOk iZero =
       ("❌ Error: Modelos ML no están disponibles", some stW) ∧
     ((predecir_y_guardar_sheets (some mW) (some scW) (some stW) envOk iZero).1 =
         "⚠️ Por favor ingrese valores válidos (no todos pueden ser 0)" →
       (some mW : Option Model).isSome = true ∧
       (some scW : Option Scaler).isSome = true)) :=
  ⟨by decide, Or.inl rfl,
   model_check_precedes_zero_check (some mW) (some scW) none (some scW)
     (some stW) (some stW) envOk envOk iZero iZero (by decide) (Or.inl rfl)⟩

/-- C2: for every non-all-zero input with model, scaler and sheet available
and a succeeding write, the prediction overwrites row 2 with exactly twelve
cells: the fresh timestamp, the ten inputs echoed in order, and the currency
string obtained by formatting `expm1` of the model applied to the scaled
feature vector, the feature vector being assembled in the fixed
`variables_modelo` order. -/
theorem predict_success_row (m : Model) (sc : Scaler) (st : List Cell)
    (env : PredictEnv) (i : Inputs) (hz : allZero i = false)
    (hw : env.writeResult = Except.ok ()) :
    (predecir_y_guardar_sheets (some m) (some sc) (some st) env i).2 =
      some (fila_actualizada env.timestamp i
        (env.fmtMiles (env.expm1 (m (sc (featuresOf i)))))) ∧
    featuresOf i =
      [i.interacciones, i.asesores, i.prom_interacciones, i.cumplimiento,
       i.participacion, i.prom_matriculas, i.crec_mensual, i.crec_anual,
       i.interacciones_por_asesor, i.matriculas_por_asesor] ∧
    (fila_actualizada env.timestamp i
        (env.fmtMiles (env.expm1 (m (sc (featuresOf i)))))).length = 12 := by
  refine ⟨?_, featuresOf_eq i, rfl⟩
  simp [predecir_y_guardar_sheets, hz, hw]

theorem predict_success_row_witness :
    allZero iW = false ∧ envOk.writeResult = Except.ok () ∧
    ((predecir_y_guardar_sheets (some mW) (some scW) (some stW) envOk iW).2 =
       some (fila_actualizada envOk.timestamp iW
         (envOk.fmtMiles (envOk.expm1 (mW (scW (featuresOf iW)))))) ∧
     featuresOf iW =
       [iW.interacciones, iW.asesores, iW.prom_interacciones, iW.cumplimiento,
        iW.participacion, iW.prom_matriculas, iW.crec_mensual, iW.crec_anual,
        iW.interacciones_por_asesor, iW.matriculas_por_asesor] ∧
     (fila_actualizada envOk.timestamp iW
         (envOk.fmtMiles (envOk.expm1 (mW (scW (featuresOf iW)))))).length = 12) :=
  ⟨by decide, rfl, predict_success_row mW scW stW envOk iW (by decide) rfl⟩

/-- C9: for every non-all-zero input, when the row write fails the prediction
still returns the full success message containing the computed estimate, with
the failure reduced to a warning string embedded in that message, and the
row-2 state is unchanged: the error does not propagate. -/
theorem write_failure_keeps_prediction (m : Model) (sc : Scaler)
    (st : List Cell) (env : PredictEnv) (i : Inputs) (e : String)
    (hz : allZero i = false) (hw : env.writeResult = Except.error e) :
    predecir_y_guardar_sheets (some m) (some sc) (some st) env i =
      (resultado_msg env i (env.expm1 (m (sc (featuresOf i))))
        ("⚠️ Error guardando en Sheets: " ++ e), some st) := by
  simp [predecir_y_guardar_sheets, hz, hw]

theorem write_failure_keeps_prediction_witness :
    allZero iW = false ∧ envErr.writeResult = Except.error "cuota excedida" ∧
    predecir_y_guardar_sheets (some mW) (some scW) (some stW) envErr iW =
      (resultado_msg envErr iW (envErr.expm1 (mW (scW (featuresOf iW))))
        ("⚠️ Error guardando en Sheets: " ++ "cuota excedida"), some stW) :=
  ⟨by decide, rfl,
   write_failure_keeps_prediction mW scW stW envErr iW "cuota excedida"
     (by decide) rfl⟩

/-- C3: every write of row 2 leaves it with exactly 12 cells of the invariant
shape: the initial creation row, the clear row and the prediction row all have
a text cell at position 0 (the timestamp or empty), numeric cells at positions
1 through 10 (the ten values), and a text cell at position 11 (the formatted
currency or empty). -/
theorem row_writes_keep_shape (m : Model) (sc : Scaler) (st : List Cell)
    (env : PredictEnv) (i : Inputs) (ts : String)
    (hz : allZero i = false) (hw : env.writeResult = Except.ok ()) :
    rowShapeOk fila_datos_init = true ∧
    (limpiar_datos (some st) ts (Except.ok ())).2 = some (fila_limpia ts) ∧
    rowShapeOk (fila_limpia ts) = true ∧
    (predecir_y_guardar_sheets (some m) (some sc) (some st) env i).2 =
      some (fila_actualizada env.timestamp i
        (env.fmtMiles (env.expm1 (m (sc (featuresOf i)))))) ∧
    rowShapeOk (fila_actualizada env.timestamp i
        (env.fmtMiles (env.expm1 (m (sc (featuresOf i)))))) = true := by
  refine ⟨rfl, rfl, rfl, ?_, rfl⟩
  simp [predecir_y_guardar_sheets, hz, hw]

theorem row_writes_keep_shape_witness :
    allZero iW = false ∧ envOk.writeResult = Except.ok () ∧
    (rowShapeOk fila_datos_init = true ∧
     (limpiar_datos (some stW) "2025-01-01 12:00:00" (Except.ok ())).2 =
       some (fila_limpia "2025-01-01 12:00:00") ∧
     rowShapeOk (fila_limpia "2025-01-01 12:00:00") = true ∧
     (predecir_y_guardar_sheets (some mW) (some scW) (some stW) envOk iW).2 =
       some (fila_actualizada envOk.timestamp iW
         (envOk.fmtMiles (envOk.expm1 (mW (scW (featuresOf iW)))))) ∧
     rowShapeOk (fila_actualizada envOk.timestamp iW
         (envOk.fmtMiles (envOk.expm1 (mW (scW (featuresOf iW)))))) = true) :=
  ⟨by decide, rfl,
   row_writes_keep_shape mW scW stW envOk iW "2025-01-01 12:00:00"
     (by decide) rfl⟩

/-- C6: a missing or invalid credential variable yields no client, so the
binding produces the not-configured state with no sheet handle, and then
clear and show return the not-configured warning as their whole result while
predict (models loaded, non-zero input) embeds the not-configured save status
and performs no row write; none of the three throws. -/
theorem missing_creds_degrade_ops (cenv : CredsEnv) (e : String)
    (benv : BindEnv) (ts url : String) (wr rr : Except String Unit)
    (m : Model) (sc : Scaler) (env : PredictEnv) (i : Inputs)
    (h : cenv.creds_json = none ∨ cenv.parseResult = Except.error e)
    (hnz : allZero i = false) :
    setup_google_sheets cenv = none ∧
    bindSpreadsheet (setup_google_sheets cenv) benv =
      Except.ok { sheet := none, url := "No configurado" } ∧
    limpiar_datos none ts wr = ("⚠️ Google Sheets no configurado", none) ∧
    mostrar_datos_actuales none url rr = "⚠️ Google Sheets no configurado" ∧
    predecir_y_guardar_sheets (some m) (some sc) none env i =
      (resultado_msg env i (env.expm1 (m (sc (featuresOf i))))
        "⚠️ Google Sheets no configurado", none) := by
  have hgc : setup_google_sheets cenv = none := by
    rcases h with h | h
    · simp [setup_google_sheets, h]
    · unfold setup_google_sheets
      cases hc : cenv.creds_json with
      | none => rfl
      | some s =>
        by_cases hs : s = ""
        · simp [hs]
        · simp [hs, h]
  refine ⟨hgc, ?_, rfl, rfl, ?_⟩
  · rw [hgc]; rfl
  · simp [predecir_y_guardar_sheets, hnz]

theorem missing_creds_degrade_ops_witness :
    (({ creds_json := none, parseResult := Except.ok (),
        authResult := Except.ok () } : CredsEnv).creds_json = none ∨
     ({ creds_json := none, parseResult := Except.ok (),
        authResult := Except.ok () } : CredsEnv).parseResult =
       Except.error "x") ∧
    allZero iW = false ∧
    (setup_google_sheets
        { creds_json := none, parseResult := Except.ok (),
          authResult := Except.ok () } = none ∧
     bindSpreadsheet
         (setup_google_sheets
           { creds_json := none, parseResult := Except.ok (),
             authResult := Except.ok () })
         { openOutcome := OpenOutcome.notFound,
           createResult := Except.ok "abc",
           insertHeaderResult := Except.ok (),
           insertDataResult := Except.ok (),
           shareResult := Except.ok () } =
       Except.ok { sheet := none, url := "No configurado" } ∧
     limpiar_datos none "2025-01-01 12:00:00" (Except.ok ()) =
       ("⚠️ Google Sheets no configurado", none) ∧
     mostrar_datos_actuales none "No configurado" (Except.ok ()) =
       "⚠️ Google Sheets no configurado" ∧
     predecir_y_guardar_sheets (some mW) (some scW) none envOk iW =
       (resultado_msg envOk iW (envOk.expm1 (mW (scW (featuresOf iW))))
         "⚠️ Google Sheets no configurado", none)) :=
  ⟨Or.inl rfl, by decide,
   missing_creds_degrade_ops
     { creds_json := none, parseResult := Except.ok (),
       authResult := Except.ok () } "x"
     { openOutcome := OpenOutcome.notFound,
       createResult := Except.ok "abc",
       insertHeaderResult := Except.ok (),
       insertDataResult := Except.ok (),
       shareResult := Except.ok () }
     "2025-01-01 12:00:00" "No configurado" (Except.ok ()) (Except.ok ())
     mW scW envOk iW (Or.inl rfl) (by decide)⟩

/-- C7: for every row-2 state with the spreadsheet available, clearing (with a
succeeding write) then showing (with a succeeding read) yields the display of
ten zero values and an empty estimate field: clear writes the fresh timestamp,
ten zeros and an empty cell 11, and show reads back exactly those twelve
cells. -/
theorem clear_then_show_zeros (st : List Cell) (ts url : String) :
    limpiar_datos (some st) ts (Except.ok ()) =
      ("✅ Datos limpiados correctamente en Google Sheets",
       some (fila_limpia ts)) ∧
    mostrar_datos_actuales (limpiar_datos (some st) ts (Except.ok ())).2 url
        (Except.ok ()) =
      "\n📊 **DATOS ACTUALES EN GOOGLE SHEETS**\n\n📅 Última actualización: "
        ++ ts
        ++ "\n🔢 Interacciones: " ++ "0"
        ++ "\n👥 Asesores: " ++ "0"
        ++ "\n📈 Promedio Interacciones: " ++ "0"
        ++ "\n🎯 % Cumplimiento: " ++ "0"
        ++ "%\n📊 Participación: " ++ "0"
        ++ "%\n📋 Promedio Matrículas: " ++ "0"
        ++ "\n📈 Crecimiento Mensual: " ++ "0"
        ++ "%\n📈 Crecimiento Anual: " ++ "0"
        ++ "%\n👤 Interacciones/Asesor: " ++ "0"
        ++ "\n🎓 Matrículas/Asesor: " ++ "0"
        ++ "\n\n💰 **RESULTADO ACTUAL: " ++ ""
        ++ "**\n\n🔗 **[Ver Google Sheet](" ++ url ++ ")**\n            " :=
  ⟨rfl, rfl⟩

/-- A concrete binding environment in which the spreadsheet is not found and
the header-row insertion of the creation path fails. -/
def badBindEnv : BindEnv :=
  { openOutcome := OpenOutcome.notFound,
    createResult := Except.ok "abc123",
    insertHeaderResult := Except.error "APIError al insertar encabezados",
    insertDataResult := Except.ok (),
    shareResult := Except.ok () }

/-- C1 counterexample: with a client present, a failure while writing the
header row during creation propagates out of the binding block
(`Except.error`), aborting startup instead of degrading to the
spreadsheet-disabled state. -/
theorem bind_create_failure_aborts :
    bindSpreadsheet (some ()) badBindEnv =
      Except.error "APIError al insertar encabezados" ∧
    bindSpreadsheet (some ()) badBindEnv ≠
      Except.ok { sheet := none, url := "No configurado" } :=
  ⟨rfl, by decide⟩

/-- C1 (amended): with no client the binding yields the disabled state; with a
client, only the spreadsheet-not-found outcome of the open is caught (and
handled by creating the sheet, inserting the header and zeroed data rows, and
sharing); any other open failure and any failure of a creation step
propagates as an uncaught error that aborts startup, and the
spreadsheet-disabled state never results from the client-present path. -/
theorem bind_only_notFound_caught (env : BindEnv) (e id : String)
    (row : List Cell) (st : BindState) :
    (bindSpreadsheet none env =
      Except.ok { sheet := none, url := "No configurado" }) ∧
    (env.openOutcome = OpenOutcome.found row id →
      bindSpreadsheet (some ()) env =
        Except.ok { sheet := some row,
                    url := "https://docs.google.com/spreadsheets/d/" ++ id }) ∧
    (env.openOutcome = OpenOutcome.err e →
      bindSpreadsheet (some ()) env = Except.error e) ∧
    (env.openOutcome = OpenOutcome.notFound →
      env.createResult = Except.error e →
      bindSpreadsheet (some ()) env = Except.error e) ∧
    (env.openOutcome = OpenOutcome.notFound →
      env.createResult = Except.ok id →
      env.insertHeaderResult = Except.error e →
      bindSpreadsheet (some ()) env = Except.error e) ∧
    (env.openOutcome = OpenOutcome.notFound →
      env.createResult = Except.ok id →
      env.insertHeaderResult = Except.ok () →
      env.insertDataResult = Except.error e →
      bindSpreadsheet (some ()) env = Except.error e) ∧
    (env.openOutcome = OpenOutcome.notFound →
      env.createResult = Except.ok id →
      env.insertHeaderResult = Except.ok () →
      env.insertDataResult = Except.ok () →
      env.shareResult = Except.error e →
      bindSpreadsheet (some ()) env = Except.error e) ∧
    (env.openOutcome = OpenOutcome.notFound →
      env.createResult = Except.ok id →
      env.insertHeaderResult = Except.ok () →
      env.insertDataResult = Except.ok () →
      env.shareResult = Except.ok () →
      bindSpreadsheet (some ()) env =
        Except.ok { sheet := some fila_datos_init,
                    url := "https://docs.google.com/spreadsheets/d/" ++ id }) ∧
    (bindSpreadsheet (some ()) env = Except.ok st → st.sheet ≠ none) := by
  refine ⟨rfl, ?_, ?_, ?_, ?_, ?_, ?_, ?_, ?_⟩
  · intro h1; simp [bindSpreadsheet, h1]
  · intro h1; simp [bindSpreadsheet, h1]
  · intro h1 h2; simp [bindSpreadsheet, h1, h2]
  · intro h1 h2 h3; simp [bindSpreadsheet, h1, h2, h3]
  · intro h1 h2 h3 h4; simp [bindSpreadsheet, h1, h2, h3, h4]
  · intro h1 h2 h3 h4 h5; simp [bindSpreadsheet, h1, h2, h3, h4, h5]
  · intro h1 h2 h3 h4 h5; simp [bindSpreadsheet, h1, h2, h3, h4, h5]
  · intro hok
    unfold bindSpreadsheet at hok
    cases ho : env.openOutcome with
    | found row2 id2 =>
      simp only [ho] at hok
      cases hok
      simp
    | err e2 =>
      simp only [ho] at hok
      cases hok
    | notFound =>
      simp only [ho] at hok
      cases hc : env.createResult with
      | error e2 => simp only [hc] at hok; cases hok
      | ok id2 =>
        simp only [hc] at hok
        cases hh : env.insertHeaderResult with
        | error e2 => simp only [hh] at hok; cases hok
        | ok u1 =>
          simp only [hh] at hok
          cases hd : env.insertDataResult with
          | error e2 => simp only [hd] at hok; cases hok
          | ok u2 =>
            simp only [hd] at hok
            cases hs : env.shareResult with
            | error e2 => simp only [hs] at hok; cases hok
            | ok u3 =>
              simp only [hs] at hok
              cases hok
              simp
